import Mathlib

/-!
Verification development for a job-search chat web application.

The embedded code comes from:
- an API-client module (`fetch`-based wrappers: uploadResume, confirmOnboarding,
  createChat, sendMessage, getChatMessages, getChatHistory, deleteChatSession);
- the ChatPage component (handleSendMessage orchestration, pagination state);
- the JobCard and JobDetailModal components (save/apply/modal logic).

Machine-level conventions of the embedding:
- a JavaScript value `x || d` for an optional string `x` is embedded by
  `jsOrString`: the empty string is falsy, so it falls through to the default;
- a rejected promise / thrown Error is `Except.error`;
- timestamps (`Date.now()` / `new Date()`) are an explicit `Nat` parameter;
- React `useState` cells are fields of an explicit state record, and an event
  handler is a function from the old state (plus its inputs and the outcome of
  any awaited request) to the new state together with the emitted effects.
-/

/-- JavaScript string truthiness: `x || d` where `x : Option String`.
`undefined`, `null` and the empty string are falsy. -/
def jsOrString (x : Option String) (d : String) : String :=
  match x with
  | some s => if s = "" then d else s
  | none => d

/-- Whitespace characters removed by JavaScript `String.prototype.trim`
(the ones expressible in the source texts at hand). -/
def isJsWhitespace (c : Char) : Bool :=
  c = ' ' || c = '\t' || c = '\n' || c = '\r'

/-- Drop leading JS whitespace from a character list. -/
def dropLeadingWs : List Char → List Char
  | [] => []
  | c :: cs => if isJsWhitespace c then dropLeadingWs cs else c :: cs

/-- JavaScript `s.trim()`: strip leading and trailing whitespace. -/
def jsTrim (s : String) : String :=
  String.mk ((dropLeadingWs (dropLeadingWs s.data).reverse).reverse)

/-! ## Data model (types from the API-client module and `App`) -/

/-- The `job_highlights` object of `JobCardData`. -/
structure JobHighlights where
  qualifications : Option (List String)
  responsibilities : Option (List String)
deriving Repr, DecidableEq

/-- Type `JobCardData`: a job record as returned by the chat API. -/
structure JobCardData where
  job_id : String
  job_title : String
  employer_name : String
  job_description : String
  job_location : Option String
  job_salary : Option String
  job_employment_type : Option String
  job_apply_link : Option String
  job_posted_at : Option String
  job_is_remote : Option Bool
  employer_logo : Option String
  job_highlights : Option JobHighlights
deriving Repr, DecidableEq

/-- The `Job` type consumed by the JobCard component. -/
structure Job where
  id : String
  title : String
  company : String
  role : String
  description : String
  location : String
  salary : String
  applyLink : Option String
  postedAt : Option String
  isRemote : Option Bool
  employerLogo : Option String
  highlights : Option JobHighlights
deriving Repr, DecidableEq

/-- Function `convertJobCardDataToJob` from ChatPage: maps API `JobCardData` to `Job`,
using `||`-defaults for the optional employment type, location and salary. -/
def convertJobCardDataToJob (jobData : JobCardData) : Job :=
  { id := jobData.job_id
    title := jobData.job_title
    company := jobData.employer_name
    role := jsOrString jobData.job_employment_type ("Full-time")
    description := jobData.job_description
    location := jsOrString jobData.job_location ("Not specified")
    salary := jsOrString jobData.job_salary ("Not disclosed")
    applyLink := jobData.job_apply_link
    postedAt := jobData.job_posted_at
    isRemote := jobData.job_is_remote
    employerLogo := jobData.employer_logo
    highlights := jobData.job_highlights }

/-! ## API client module -/

/-- Type `ChatMessage` from the API module. -/
structure ChatMessage where
  sender : String
  message : String
  timestamp : Option String
  selected_job_id : Option String
deriving Repr, DecidableEq

/-- Type `CreateChatResponse` from the API module. -/
structure CreateChatResponse where
  chat_id : String
  chat_name : String
  initial_message : String
deriving Repr, DecidableEq

/-- Type `ChatMessageResponse` from the API module. -/
structure ChatMessageResponse where
  message : String
  jobs : Option (List JobCardData)
  selected_job_details : Option JobCardData
deriving Repr, DecidableEq

/-- Type `GetChatMessagesResponse` from the API module. -/
structure GetChatMessagesResponse where
  messages : List ChatMessage
  chat_name : String
deriving Repr, DecidableEq

/-- The object with a message and an optional id returned by
confirmOnboarding. -/
structure ConfirmOnboardingResponse where
  message : String
  id : Option String
deriving Repr, DecidableEq

/-- One entry of the chat history listing. -/
structure ChatHistoryEntry where
  id : String
  chat_name : String
  chat_id : String
deriving Repr, DecidableEq

/-- The object with a chats list returned by getChatHistory. -/
structure ChatHistoryResponse where
  chats : List ChatHistoryEntry
deriving Repr, DecidableEq

/-- The object with a message returned by deleteChatSession. -/
structure DeleteChatSessionResponse where
  message : String
deriving Repr, DecidableEq

/-- A settled `fetch` response as the API client consumes it: the `ok` flag,
the body parsed as the success payload (read in the `ok` branch), and the
the optional `detail` field of the body (read in the error branch). -/
structure HttpResponse (α : Type) where
  ok : Bool
  detail : Option String
  value : α
deriving Repr

/-- Function `uploadResume`: the success payload type (`UserProfile`, defined outside
the supplied files) is a type parameter. -/
def uploadResume {α : Type} (response : HttpResponse α) : Except String α :=
  if response.ok then Except.ok response.value
  else Except.error (jsOrString response.detail ("Failed to upload resume"))

/-- Function `confirmOnboarding` from the API module. -/
def confirmOnboarding (response : HttpResponse ConfirmOnboardingResponse) :
    Except String ConfirmOnboardingResponse :=
  if response.ok then Except.ok response.value
  else Except.error (jsOrString response.detail ("Failed to confirm onboarding details"))

/-- Function `createChat` from the API module. -/
def createChat (response : HttpResponse CreateChatResponse) :
    Except String CreateChatResponse :=
  if response.ok then Except.ok response.value
  else Except.error (jsOrString response.detail ("Failed to create chat"))

/-- Function `sendMessage` from the API module. -/
def sendMessage (response : HttpResponse ChatMessageResponse) :
    Except String ChatMessageResponse :=
  if response.ok then Except.ok response.value
  else Except.error (jsOrString response.detail ("Failed to send message"))

/-- Function `getChatMessages` from the API module. -/
def getChatMessages (response : HttpResponse GetChatMessagesResponse) :
    Except String GetChatMessagesResponse :=
  if response.ok then Except.ok response.value
  else Except.error (jsOrString response.detail ("Failed to get chat messages"))

/-- Function `getChatHistory` from the API module. -/
def getChatHistory (response : HttpResponse ChatHistoryResponse) :
    Except String ChatHistoryResponse :=
  if response.ok then Except.ok response.value
  else Except.error (jsOrString response.detail ("Failed to get chat history"))

/-- Function `deleteChatSession` from the API module. -/
def deleteChatSession (response : HttpResponse DeleteChatSessionResponse) :
    Except String DeleteChatSessionResponse :=
  if response.ok then Except.ok response.value
  else Except.error (jsOrString response.detail ("Failed to delete chat session"))

/-! ## ChatPage component -/

/-- Type `Message` from `App` as ChatPage builds it (timestamps as `Nat` ticks). -/
structure Message where
  id : String
  sender : String
  content : String
  timestamp : Nat
deriving Repr, DecidableEq

/-- Type `Chat` from `App`. -/
structure Chat where
  id : String
  title : String
  messages : List Message
  timestamp : Nat
deriving Repr, DecidableEq

/-- The `useState` cells of ChatPage that handleSendMessage and the pagination
controls read or write. -/
structure ChatPageState where
  currentChat : Option Chat
  message : String
  displayedJobs : List Job
  currentPage : Nat
  showJobs : Bool
  isSending : Bool
  selectedJobId : Option String
  actualChatId : Option String
deriving Repr, DecidableEq

/-- Effects emitted by one run of handleSendMessage: whether the guard was
passed and a sendMessage request issued, and the `updateChat` prop calls
(chat id, messages, title). -/
structure SendEffects where
  requestIssued : Bool
  updateChatCalls : List (String × List Message × String)
deriving Repr, DecidableEq

/-- No effects: the early-return outcome. -/
def noSendEffects : SendEffects := { requestIssued := false, updateChatCalls := [] }

/-- The assignment `const messageText = text || message` at the top of
handleSendMessage:
an absent or empty argument falls back to the input field state. -/
def resolvedText (text : Option String) (stateMessage : String) : String :=
  jsOrString text stateMessage

/-- The early-return guard of handleSendMessage:
`!messageText.trim() || !currentChat || !actualChatId || isSending`. -/
def sendGuardFails (st : ChatPageState) (text : Option String) : Bool :=
  jsTrim (resolvedText text st.message) = "" || st.currentChat.isNone
    || st.actualChatId.isNone || st.isSending

/-- Function `handleSendMessage` from ChatPage as a state transformer. `now` stands for
`Date.now()` at the optimistic append, and `outcome` is how the awaited
`sendMessage` promise settles (`Except.error` = rejection caught by the
`catch` block). Returns the post-run state and the emitted effects. -/
def handleSendMessage (st : ChatPageState) (text : Option String) (now : Nat)
    (outcome : Except String ChatMessageResponse) :
    ChatPageState × SendEffects :=
  let messageText := resolvedText text st.message
  if sendGuardFails st text then (st, noSendEffects)
  else
    match st.currentChat, st.actualChatId with
    | some currentChat, some actualChatId =>
      -- setIsSending true, clear the message input
      let newUserMessage : Message :=
        { id := "msg-" ++ toString now, sender := "user"
          content := messageText, timestamp := now }
      let updatedMessages := currentChat.messages ++ [newUserMessage]
      -- setCurrentChat({ ...currentChat, messages: updatedMessages })
      match outcome with
      | Except.ok response =>
        let newBotMessage : Message :=
          { id := "msg-" ++ toString (now + 1), sender := "bot"
            content := response.message, timestamp := now }
        let messagesWithBot := updatedMessages ++ [newBotMessage]
        let newTitle :=
          if currentChat.messages.length = 1 then
            (messageText.take 50) ++ (if messageText.length > 50 then ("...") else (""))
          else currentChat.title
        let finalChat : Chat :=
          { currentChat with messages := messagesWithBot, title := newTitle }
        let st1 : ChatPageState :=
          { st with currentChat := some finalChat, message := "" }
        let st2 : ChatPageState :=
          match response.jobs with
          | some jobs =>
            if jobs.length > 0 then
              { st1 with displayedJobs := jobs.map convertJobCardDataToJob
                         showJobs := true
                         currentPage := 1 }
            else st1
          | none => st1
        let st3 : ChatPageState :=
          { st2 with selectedJobId := none, isSending := false }
        (st3, { requestIssued := true
                updateChatCalls := [(actualChatId, messagesWithBot, newTitle)] })
      | Except.error _ =>
        -- catch: setCurrentChat({ ...currentChat, messages: currentChat.messages })
        let st1 : ChatPageState :=
          { st with currentChat := some { currentChat with messages := currentChat.messages }
                    message := ""
                    isSending := false }
        (st1, { requestIssued := true, updateChatCalls := [] })
    | _, _ => (st, noSendEffects)

/-- The constant `jobsPerPage = 3` in ChatPage. -/
def jobsPerPage : Nat := 3

/-- Derived value `totalPages = Math.ceil(displayedJobs.length / jobsPerPage)`. -/
def totalPages (displayedJobs : List Job) : Nat :=
  (displayedJobs.length + (jobsPerPage - 1)) / jobsPerPage

/-- Derived value `paginatedJobs = displayedJobs.slice((currentPage-1)*jobsPerPage,
currentPage*jobsPerPage)` (JS slice on non-negative indices: drop then take). -/
def paginatedJobs (displayedJobs : List Job) (currentPage : Nat) : List Job :=
  ((displayedJobs.drop ((currentPage - 1) * jobsPerPage)).take
    (currentPage * jobsPerPage - (currentPage - 1) * jobsPerPage))

/-- Previous button: `setCurrentPage((prev) => Math.max(1, prev - 1))`. -/
def prevPageClick (prev : Nat) : Nat := max 1 (prev - 1)

/-- Next button: `setCurrentPage((prev) => Math.min(totalPages, prev + 1))`. -/
def nextPageClick (tp : Nat) (prev : Nat) : Nat := min tp (prev + 1)

/-- Numbered page buttons: `Array.from({length: Math.min(totalPages, 5)},
(_, i) => i + 1)` — the list of page numbers rendered as buttons. -/
def numberedPageButtons (tp : Nat) : List Nat :=
  (List.range (min tp 5)).map (fun i => i + 1)

/-- Jobs-response delivery inside handleSendMessage: on a non-empty `jobs`
field the component sets `displayedJobs`, `showJobs := true`,
`currentPage := 1`. -/
def jobsResponseUpdate (st : ChatPageState) (jobs : List JobCardData) :
    ChatPageState :=
  if jobs.length > 0 then
    { st with displayedJobs := jobs.map convertJobCardDataToJob
              showJobs := true
              currentPage := 1 }
  else st

/-- The pagination invariant of the claim:
`1 <= currentPage <= max 1 totalPages`. -/
def pageInvariant (displayedJobs : List Job) (currentPage : Nat) : Prop :=
  1 ≤ currentPage ∧ currentPage ≤ max 1 (totalPages displayedJobs)

/-! ## JobCard and JobDetailModal components -/

/-- Where `createPortal` mounts: the element with id modal-root when it
exists, else document.body. -/
inductive ModalRoot
  | modalRootElement
  | documentBody
deriving Repr, DecidableEq

/-- Lookup of the modal root: the element with id modal-root or, failing
that, document.body; `hasModalRootElement` records whether it exists. -/
def getModalRoot (hasModalRootElement : Bool) : ModalRoot :=
  if hasModalRootElement then ModalRoot.modalRootElement else ModalRoot.documentBody

/-- Result of rendering a modal component: `null`, or a portal of some content
into a root. The content is abstracted to the strings the markup interpolates. -/
inductive Rendered (α : Type)
  | null
  | portal (content : α) (root : ModalRoot)
deriving Repr, DecidableEq

/-- The job strings interpolated into the apply-confirmation markup. -/
structure ApplyConfirmationContent where
  jobTitle : String
  jobCompany : String
deriving Repr, DecidableEq

/-- Component `ApplyConfirmationModal` as defined inside JobCard.tsx:
returns null unless `isOpen`, else portals its dialog into the modal root. -/
def jobCardApplyConfirmationModal (isOpen : Bool) (job : Job)
    (hasModalRootElement : Bool) : Rendered ApplyConfirmationContent :=
  if !isOpen then Rendered.null
  else Rendered.portal { jobTitle := job.title, jobCompany := job.company }
    (getModalRoot hasModalRootElement)

/-- Component `ApplyConfirmationModal` as defined inside JobDetailModal.tsx (a verbatim
duplicate of the JobCard one). -/
def jobDetailApplyConfirmationModal (isOpen : Bool) (job : Job)
    (hasModalRootElement : Bool) : Rendered ApplyConfirmationContent :=
  if !isOpen then Rendered.null
  else Rendered.portal { jobTitle := job.title, jobCompany := job.company }
    (getModalRoot hasModalRootElement)

/-- The detail-modal content, abstracted to the job it displays and the
nested apply-confirmation render. -/
structure JobDetailContent where
  job : Job
  applyConfirmation : Rendered ApplyConfirmationContent
deriving Repr, DecidableEq

/-- Component `JobDetailModal`: returns null unless `isOpen`, else portals its content
(including the nested ApplyConfirmationModal driven by its
`showApplyConfirmation` state) into the modal root. -/
def jobDetailModalRender (job : Job) (isOpen : Bool)
    (showApplyConfirmation : Bool) (hasModalRootElement : Bool) :
    Rendered JobDetailContent :=
  if !isOpen then Rendered.null
  else Rendered.portal
    { job := job
      applyConfirmation :=
        jobDetailApplyConfirmationModal showApplyConfirmation job hasModalRootElement }
    (getModalRoot hasModalRootElement)

/-- Which of the two save callbacks a save toggle invoked. -/
inductive SaveCall
  | onSaveCb (job : Job)
  | onUnsaveCb (job : Job)
deriving Repr, DecidableEq

/-- Handler `handleSaveToggle` in JobCard.tsx: the single callback invocation it makes
(`onUnsave(job)` when saved, `onSave(job)` otherwise). -/
def jobCardHandleSaveToggle (isSaved : Bool) (job : Job) : List SaveCall :=
  if isSaved then [SaveCall.onUnsaveCb job] else [SaveCall.onSaveCb job]

/-- Handler `handleSaveToggle` in JobDetailModal.tsx (same branch structure, no
toasts). -/
def jobDetailHandleSaveToggle (isSaved : Bool) (job : Job) : List SaveCall :=
  if isSaved then [SaveCall.onUnsaveCb job] else [SaveCall.onSaveCb job]

/-! ### Apply flow (JobCard and JobDetailModal)

The apply flow is driven by the `showApplyConfirmation` state cell and three
handlers. `handleApply` / `handleApplyClick` run on the Apply button;
`handleConfirmApply` / `handleCancelApply` run on the buttons of the
confirmation modal, which exist only while the modal is rendered (the modal returns null
when closed), so confirm/cancel events are deliverable only in the open state.
-/

/-- User events in the apply flow. -/
inductive ApplyEvent
  | applyClick
  | confirmClick
  | cancelClick
deriving Repr, DecidableEq

/-- Observable effects of one apply-flow step. -/
structure ApplyEffects where
  openedLink : Option String
  onApplyCalled : Bool
deriving Repr, DecidableEq

/-- The no-effect step outcome. -/
def noApplyEffects : ApplyEffects := { openedLink := none, onApplyCalled := false }

/-- One step of the JobCard apply flow. State is `showApplyConfirmation`.
`handleApply` returns at once when `isApplied`; otherwise it opens
`job.applyLink` (when present) and opens the confirmation modal.
`handleConfirmApply` calls `onApply(job)` and closes the modal;
`handleCancelApply` closes it. Confirm/cancel are no-ops while the modal is
closed because its buttons are not rendered then. -/
def jobCardApplyStep (isApplied : Bool) (job : Job) (showConfirm : Bool) :
    ApplyEvent → Bool × ApplyEffects
  | ApplyEvent.applyClick =>
    if isApplied then (showConfirm, noApplyEffects)
    else (true, { openedLink := job.applyLink, onApplyCalled := false })
  | ApplyEvent.confirmClick =>
    if showConfirm then (false, { openedLink := none, onApplyCalled := true })
    else (showConfirm, noApplyEffects)
  | ApplyEvent.cancelClick =>
    if showConfirm then (false, noApplyEffects)
    else (showConfirm, noApplyEffects)

/-- One step of the JobDetailModal apply flow (`handleApplyClick` /
`handleConfirmApply` / `handleCancelApply`): same transition structure. -/
def jobDetailApplyStep (isApplied : Bool) (job : Job) (showConfirm : Bool) :
    ApplyEvent → Bool × ApplyEffects
  | ApplyEvent.applyClick =>
    if isApplied then (showConfirm, noApplyEffects)
    else (true, { openedLink := job.applyLink, onApplyCalled := false })
  | ApplyEvent.confirmClick =>
    if showConfirm then (false, { openedLink := none, onApplyCalled := true })
    else (showConfirm, noApplyEffects)
  | ApplyEvent.cancelClick =>
    if showConfirm then (false, noApplyEffects)
    else (showConfirm, noApplyEffects)

/-- Run a list of apply-flow events through a step function, collecting the
per-step effects in order. -/
def runApplySteps (step : Bool → ApplyEvent → Bool × ApplyEffects)
    (showConfirm : Bool) : List ApplyEvent → Bool × List ApplyEffects
  | [] => (showConfirm, [])
  | e :: es =>
    let r := step showConfirm e
    let rest := runApplySteps step r.fst es
    (rest.fst, r.snd :: rest.snd)

/-! ## Sample values used by witnesses and counterexamples -/

/-- A concrete job used in witnesses. -/
def wJob : Job :=
  { id := "job-1", title := "Frontend Developer", company := "Acme"
    role := "Full-time", description := "Build UIs"
    location := "Remote", salary := "100k"
    applyLink := some ("https://example.com/apply")
    postedAt := none, isRemote := some true, employerLogo := none
    highlights := none }

/-- A concrete `JobCardData` whose employment type is present and non-empty,
whose location is absent, and whose salary is present but empty. -/
def wJobCardData : JobCardData :=
  { job_id := "j1", job_title := "Dev", employer_name := "Acme"
    job_description := "desc", job_location := none
    job_salary := some (""), job_employment_type := some ("Contract")
    job_apply_link := none, job_posted_at := none, job_is_remote := none
    employer_logo := none, job_highlights := none }

/-- A concrete `JobCardData` whose `job_location` is present but equal to the
empty string. -/
def wJobCardDataEmptyLoc : JobCardData :=
  { job_id := "j2", job_title := "Dev", employer_name := "Acme"
    job_description := "desc", job_location := some ("")
    job_salary := none, job_employment_type := none
    job_apply_link := none, job_posted_at := none, job_is_remote := none
    employer_logo := none, job_highlights := none }

/-- A concrete empty chat-message response payload. -/
def wChatMessageResponse : ChatMessageResponse :=
  { message := "", jobs := none, selected_job_details := none }

/-- A failed HTTP response whose body has `detail` present but empty. -/
def wRespEmptyDetail : HttpResponse ChatMessageResponse :=
  { ok := false, detail := some (""), value := wChatMessageResponse }

/-- A concrete chat used in witnesses. -/
def wChat : Chat :=
  { id := "c1", title := "Job Search", messages := [], timestamp := 0 }

/-- A concrete ChatPage state with a send already in flight. -/
def wSendingState : ChatPageState :=
  { currentChat := some wChat, message := "hello", displayedJobs := []
    currentPage := 1, showJobs := false, isSending := true
    selectedJobId := none, actualChatId := some ("c1") }

/-- The error-mapping contract of one API wrapper with fallback `fb`:
the parsed body is returned exactly when `ok`; on failure the thrown message
is a present non-empty `detail`, and the fallback when `detail` is absent or
empty. -/
def apiErrorContract {α : Type} (f : HttpResponse α → Except String α)
    (fb : String) : Prop :=
  ∀ r : HttpResponse α,
    (f r).isOk = r.ok ∧
    (r.ok = true → f r = Except.ok r.value) ∧
    (∀ s, r.ok = false → s ≠ "" → r.detail = some s → f r = Except.error s) ∧
    (r.ok = false → (r.detail = none ∨ r.detail = some ("")) →
      f r = Except.error fb)

/-! ## Helper lemmas -/

/-- The value `x || d` is the default when `x` is absent or empty. -/
theorem jsOrString_default (x : Option String) (d : String)
    (h : x = none ∨ x = some ("")) : jsOrString x d = d := by
  rcases h with h | h <;> subst h <;> simp [jsOrString]

/-- The value `x || d` is `x` itself when present and non-empty. -/
theorem jsOrString_keep (x : Option String) (d s : String)
    (hs : s ≠ "") (h : x = some s) : jsOrString x d = s := by
  subst h; simp [jsOrString, hs]

/-- Any wrapper of the common `if ok then body else throw (detail || fb)`
shape satisfies `apiErrorContract`. -/
theorem apiErrorContract_mk {α : Type} (fb : String)
    (f : HttpResponse α → Except String α)
    (hf : ∀ r, f r =
      if r.ok then Except.ok r.value
      else Except.error (jsOrString r.detail fb)) :
    apiErrorContract f fb := by
  intro r
  rcases r with ⟨ok, detail, v⟩
  cases ok with
  | true =>
    refine ⟨?_, ?_, ?_, ?_⟩
    · rw [hf]; rfl
    · intro _; rw [hf]; rfl
    · intro s h; cases h
    · intro h; cases h
  | false =>
    refine ⟨?_, ?_, ?_, ?_⟩
    · rw [hf]; rfl
    · intro h; cases h
    · intro s _ hs hd
      rw [hf]
      simp only [Bool.false_eq_true, if_false]
      rw [jsOrString_keep _ fb s hs hd]
    · intro _ hd
      rw [hf]
      simp only [Bool.false_eq_true, if_false]
      rw [jsOrString_default _ fb hd]

/-! ## Claim theorems -/

/-- C3 counterexample: `sendMessage` on a failed response whose body has a
`detail` field that is present but empty throws the fallback message
`Failed to send message`, not the present `detail` value `""` — so "the
message is the detail field when present" is false as stated. -/
theorem sendMessage_emptyDetail_counterexample :
    wRespEmptyDetail.ok = false ∧
    wRespEmptyDetail.detail = some ("") ∧
    sendMessage wRespEmptyDetail = Except.error ("Failed to send message") ∧
    sendMessage wRespEmptyDetail ≠ Except.error ("") := by
  refine ⟨rfl, rfl, rfl, ?_⟩
  intro h
  have h1 : "Failed to send message" = "" := Except.error.inj h
  exact absurd h1 (by decide)

/-- C3 (amended): every API wrapper returns the parsed body exactly when
`response.ok` holds, and otherwise throws an Error whose message is the
detail field of the body when that field is present and non-empty, and the
specific fallback string of the wrapper when `detail` is absent, null, or the
empty string (JS `||` truthiness). -/
theorem api_error_mapping :
    (∀ (α : Type), apiErrorContract (fun r : HttpResponse α => uploadResume r)
      ("Failed to upload resume")) ∧
    apiErrorContract confirmOnboarding ("Failed to confirm onboarding details") ∧
    apiErrorContract createChat ("Failed to create chat") ∧
    apiErrorContract sendMessage ("Failed to send message") ∧
    apiErrorContract getChatMessages ("Failed to get chat messages") ∧
    apiErrorContract getChatHistory ("Failed to get chat history") ∧
    apiErrorContract deleteChatSession ("Failed to delete chat session") := by
  refine ⟨fun α => apiErrorContract_mk _ _ (fun r => rfl),
    apiErrorContract_mk _ _ (fun r => rfl),
    apiErrorContract_mk _ _ (fun r => rfl),
    apiErrorContract_mk _ _ (fun r => rfl),
    apiErrorContract_mk _ _ (fun r => rfl),
    apiErrorContract_mk _ _ (fun r => rfl),
    apiErrorContract_mk _ _ (fun r => rfl)⟩

/-- Witness for C3: the contract applied to a concrete failed response with a
non-empty `detail`. -/
theorem api_error_mapping_witness :
    sendMessage { ok := false, detail := some ("boom"), value := wChatMessageResponse }
      = Except.error ("boom") := by
  have h := api_error_mapping
  exact (h.2.2.2.1 { ok := false, detail := some ("boom"), value := wChatMessageResponse }).2.2.1
    ("boom") rfl (by decide) rfl

/-- C9 counterexample: `convertJobCardDataToJob` substitutes the default
location `Not specified` even though `job_location` is present (it is the
empty string) — so "defaults exactly when the optional fields are absent" is
false as stated. -/
theorem convert_emptyLocation_counterexample :
    wJobCardDataEmptyLoc.job_location = some ("") ∧
    (convertJobCardDataToJob wJobCardDataEmptyLoc).location = "Not specified" ∧
    (convertJobCardDataToJob wJobCardDataEmptyLoc).location ≠ "" := by
  refine ⟨rfl, rfl, by decide⟩

/-- C9 (amended): `convertJobCardDataToJob` copies `job_id`, `job_title`,
`employer_name` and `job_description` unchanged, and substitutes the fixed
defaults exactly when the optional field is absent or the empty string
(JS `||` truthiness); a present non-empty value is kept. -/
theorem convertJobCardDataToJob_spec (jd : JobCardData) :
    (convertJobCardDataToJob jd).id = jd.job_id ∧
    (convertJobCardDataToJob jd).title = jd.job_title ∧
    (convertJobCardDataToJob jd).company = jd.employer_name ∧
    (convertJobCardDataToJob jd).description = jd.job_description ∧
    ((jd.job_employment_type = none ∨ jd.job_employment_type = some ("")) →
      (convertJobCardDataToJob jd).role = "Full-time") ∧
    (∀ s, s ≠ "" → jd.job_employment_type = some s →
      (convertJobCardDataToJob jd).role = s) ∧
    ((jd.job_location = none ∨ jd.job_location = some ("")) →
      (convertJobCardDataToJob jd).location = "Not specified") ∧
    (∀ s, s ≠ "" → jd.job_location = some s →
      (convertJobCardDataToJob jd).location = s) ∧
    ((jd.job_salary = none ∨ jd.job_salary = some ("")) →
      (convertJobCardDataToJob jd).salary = "Not disclosed") ∧
    (∀ s, s ≠ "" → jd.job_salary = some s →
      (convertJobCardDataToJob jd).salary = s) := by
  refine ⟨rfl, rfl, rfl, rfl, ?_, ?_, ?_, ?_, ?_, ?_⟩
  · intro h; exact jsOrString_default _ _ h
  · intro s hs h; exact jsOrString_keep _ _ s hs h
  · intro h; exact jsOrString_default _ _ h
  · intro s hs h; exact jsOrString_keep _ _ s hs h
  · intro h; exact jsOrString_default _ _ h
  · intro s hs h; exact jsOrString_keep _ _ s hs h

/-- Witness for C9: the amended conversion facts at a concrete record. -/
theorem convertJobCardDataToJob_spec_witness :
    (convertJobCardDataToJob wJobCardData).role = "Contract" ∧
    (convertJobCardDataToJob wJobCardData).location = "Not specified" ∧
    (convertJobCardDataToJob wJobCardData).salary = "Not disclosed" := by
  have h := convertJobCardDataToJob_spec wJobCardData
  exact ⟨h.2.2.2.2.2.1 ("Contract") (by decide) rfl,
    h.2.2.2.2.2.2.1 (Or.inl rfl),
    h.2.2.2.2.2.2.2.2.1 (Or.inr rfl)⟩

/-- Each page slice takes exactly the 3-element window after the drop:
the take amount computed from the slice bounds is 3 for every page `i + 1`. -/
theorem paginatedJobs_eq_window (jobs : List Job) (i : Nat) :
    paginatedJobs jobs (i + 1) = (jobs.drop (i * 3)).take 3 := by
  unfold paginatedJobs jobsPerPage
  have h2 : (i + 1) * 3 - (i + 1 - 1) * 3 = 3 := by omega
  have h1 : (i + 1 - 1) * 3 = i * 3 := by omega
  rw [h2, h1]

/-- Concatenating the first `n` pages yields the first `3 * n` jobs. -/
theorem pages_flatten_take (jobs : List Job) :
    ∀ n : Nat,
      ((List.range n).map (fun i => paginatedJobs jobs (i + 1))).flatten
        = jobs.take (3 * n) := by
  intro n
  induction n with
  | zero => simp
  | succ k ih =>
    rw [List.range_succ, List.map_append, List.flatten_append, ih]
    simp only [List.map_cons, List.map_nil, List.flatten_cons, List.flatten_nil,
      List.append_nil]
    rw [paginatedJobs_eq_window, Nat.mul_comm k 3, ← List.take_add]
    congr 1

/-- C2: with `jobsPerPage = 3`, every rendered page
`displayedJobs.slice((p-1)*3, p*3)` holds at most 3 jobs;
`totalPages = ceil(length / 3)` (characterized as the least `n` with
`length ≤ 3 * n`); and concatenating the pages for `p = 1 .. totalPages`
in order yields exactly `displayedJobs`. -/
theorem pagination_pages_cover (jobs : List Job) (p : Nat) :
    jobsPerPage = 3 ∧
    (paginatedJobs jobs p).length ≤ jobsPerPage ∧
    jobs.length ≤ jobsPerPage * totalPages jobs ∧
    jobsPerPage * totalPages jobs < jobs.length + jobsPerPage ∧
    ((List.range (totalPages jobs)).map
      (fun i => paginatedJobs jobs (i + 1))).flatten = jobs := by
  refine ⟨rfl, ?_, ?_, ?_, ?_⟩
  · unfold paginatedJobs jobsPerPage
    calc (((jobs.drop ((p - 1) * 3)).take (p * 3 - (p - 1) * 3))).length
        ≤ p * 3 - (p - 1) * 3 := by simp
      _ ≤ 3 := by omega
  · unfold totalPages jobsPerPage; omega
  · unfold totalPages jobsPerPage; omega
  · rw [pages_flatten_take]
    apply List.take_of_length_le
    unfold totalPages jobsPerPage
    omega

/-- C5: the pagination controls preserve `1 ≤ currentPage ≤ max 1 totalPages`:
Previous under the invariant; Next whenever the controls are rendered
(`totalPages ≥ 1`); every rendered numbered page button; and delivery of a
non-empty jobs response, which resets the page to 1. -/
theorem pagination_invariant_preserved (jobs : List Job) (p k : Nat)
    (st : ChatPageState) (newJobs : List JobCardData) :
    (pageInvariant jobs p → pageInvariant jobs (prevPageClick p)) ∧
    (1 ≤ totalPages jobs → pageInvariant jobs (nextPageClick (totalPages jobs) p)) ∧
    (k ∈ numberedPageButtons (totalPages jobs) → pageInvariant jobs k) ∧
    (0 < newJobs.length →
      pageInvariant (jobsResponseUpdate st newJobs).displayedJobs
        (jobsResponseUpdate st newJobs).currentPage) := by
  refine ⟨?_, ?_, ?_, ?_⟩
  · rintro ⟨h1, h2⟩
    unfold pageInvariant prevPageClick at *
    omega
  · intro h
    unfold pageInvariant nextPageClick
    omega
  · intro hk
    unfold numberedPageButtons at hk
    simp only [List.mem_map, List.mem_range] at hk
    obtain ⟨i, hi, rfl⟩ := hk
    unfold pageInvariant
    omega
  · intro h
    unfold jobsResponseUpdate
    rw [if_pos h]
    refine ⟨le_refl 1, ?_⟩
    exact Nat.le_max_left 1 _

/-- Witness for C5: the invariant-preservation facts at a concrete state with
4 displayed jobs (2 pages), current page 2, and a concrete non-empty
response. -/
theorem pagination_invariant_preserved_witness :
    pageInvariant [wJob, wJob, wJob, wJob] (prevPageClick 2) ∧
    pageInvariant [wJob, wJob, wJob, wJob]
      (nextPageClick (totalPages [wJob, wJob, wJob, wJob]) 1) ∧
    pageInvariant [wJob, wJob, wJob, wJob] 2 ∧
    pageInvariant
      (jobsResponseUpdate
        { currentChat := none, message := "", displayedJobs := [],
          currentPage := 1, showJobs := false, isSending := false,
          selectedJobId := none, actualChatId := none }
        [wJobCardData]).displayedJobs
      (jobsResponseUpdate
        { currentChat := none, message := "", displayedJobs := [],
          currentPage := 1, showJobs := false, isSending := false,
          selectedJobId := none, actualChatId := none }
        [wJobCardData]).currentPage := by
  have h := pagination_invariant_preserved [wJob, wJob, wJob, wJob] 2 2
    { currentChat := none, message := "", displayedJobs := [],
      currentPage := 1, showJobs := false, isSending := false,
      selectedJobId := none, actualChatId := none }
    [wJobCardData]
  refine ⟨h.1 ⟨by decide, by decide⟩, h.2.1 (by decide), h.2.2.1 ?_, h.2.2.2 (by decide)⟩
  unfold numberedPageButtons
  decide

/-- When the early-return guard fires, handleSendMessage returns the state
unchanged with no effects. -/
theorem handleSendMessage_guardTrue (st : ChatPageState) (text : Option String)
    (now : Nat) (outcome : Except String ChatMessageResponse)
    (h : sendGuardFails st text = true) :
    handleSendMessage st text now outcome = (st, noSendEffects) := by
  simp only [handleSendMessage, h, if_true]

/-- Characterization of a guard-passing run whose request rejects: the
message input is cleared, isSending is reset, and everything else, the
current chat included, is exactly as before the call. -/
theorem handleSendMessage_error_eq (cc : Chat) (aci msg : String)
    (dj : List Job) (cp : Nat) (sj iss : Bool) (sel : Option String)
    (text : Option String) (now : Nat) (err : String)
    (h : sendGuardFails ⟨some cc, msg, dj, cp, sj, iss, sel, some aci⟩ text = false) :
    handleSendMessage ⟨some cc, msg, dj, cp, sj, iss, sel, some aci⟩ text now
        (Except.error err)
      = (⟨some cc, "", dj, cp, sj, false, sel, some aci⟩,
         { requestIssued := true, updateChatCalls := [] }) := by
  unfold handleSendMessage
  rw [if_neg (by rw [h]; exact Bool.false_ne_true)]

/-- A guard-passing run whose request succeeds always clears the selected
job id. -/
theorem handleSendMessage_ok_selectedJobId (cc : Chat) (aci msg : String)
    (dj : List Job) (cp : Nat) (sj iss : Bool) (sel : Option String)
    (text : Option String) (now : Nat) (resp : ChatMessageResponse)
    (h : sendGuardFails ⟨some cc, msg, dj, cp, sj, iss, sel, some aci⟩ text = false) :
    (handleSendMessage ⟨some cc, msg, dj, cp, sj, iss, sel, some aci⟩ text now
        (Except.ok resp)).fst.selectedJobId = none := by
  unfold handleSendMessage
  rw [if_neg (by rw [h]; exact Bool.false_ne_true)]

/-- C1: whenever the sendMessage request rejects, the state handleSendMessage
leaves behind has exactly the chat message list it started with — the
optimistic user-message append is rolled back by the catch branch, so a
failed send leaves the displayed chat messages unchanged (this holds for
every state, in particular for every non-blank text passing the guard). -/
theorem send_failure_restores_messages (st : ChatPageState) (text : Option String)
    (now : Nat) (err : String) :
    ((handleSendMessage st text now (Except.error err)).fst.currentChat).map
      Chat.messages = st.currentChat.map Chat.messages := by
  obtain ⟨cc, msg, dj, cp, sj, iss, sel, aci⟩ := st
  by_cases hg : sendGuardFails ⟨cc, msg, dj, cp, sj, iss, sel, aci⟩ text = true
  · simp only [handleSendMessage, hg, if_true]
  · simp only [Bool.not_eq_true] at hg
    simp only [handleSendMessage, hg, Bool.false_eq_true, if_false]
    cases cc with
    | none => cases aci <;> rfl
    | some c => cases aci <;> rfl

/-- C4: handleSendMessage returns immediately, with no state change and no
request issued, when a send is already in flight (isSending), when the
message text trims to empty, or when there is no current chat or chat id;
and a run issues a request exactly when the guard passes — so while one
request is in flight every further invocation is a no-op and no second
request starts before the first settles. -/
theorem send_guard_noop (st : ChatPageState) (text : Option String) (now : Nat)
    (outcome : Except String ChatMessageResponse) :
    (st.isSending = true →
      handleSendMessage st text now outcome = (st, noSendEffects)) ∧
    (jsTrim (resolvedText text st.message) = "" →
      handleSendMessage st text now outcome = (st, noSendEffects)) ∧
    (st.currentChat = none →
      handleSendMessage st text now outcome = (st, noSendEffects)) ∧
    (st.actualChatId = none →
      handleSendMessage st text now outcome = (st, noSendEffects)) ∧
    (sendGuardFails st text = true →
      handleSendMessage st text now outcome = (st, noSendEffects)) ∧
    (handleSendMessage st text now outcome).snd.requestIssued
      = !(sendGuardFails st text) := by
  have hmain : sendGuardFails st text = true →
      handleSendMessage st text now outcome = (st, noSendEffects) :=
    handleSendMessage_guardTrue st text now outcome
  refine ⟨?_, ?_, ?_, ?_, hmain, ?_⟩
  · intro h; exact hmain (by simp [sendGuardFails, h])
  · intro h; exact hmain (by simp [sendGuardFails, h])
  · intro h; exact hmain (by simp [sendGuardFails, h])
  · intro h; exact hmain (by simp [sendGuardFails, h])
  · by_cases hg : sendGuardFails st text = true
    · rw [hmain hg, hg]; rfl
    · simp only [Bool.not_eq_true] at hg
      rw [hg]
      obtain ⟨cc, msg, dj, cp, sj, iss, sel, aci⟩ := st
      unfold sendGuardFails at hg
      simp only [Bool.or_eq_false_iff] at hg
      obtain ⟨⟨⟨htrim, hcc⟩, haci⟩, hiss⟩ := hg
      cases cc with
      | none => simp at hcc
      | some c =>
        cases aci with
        | none => simp at haci
        | some a =>
          simp only [handleSendMessage]
          rw [if_neg (by simp [sendGuardFails, htrim, hiss])]
          cases outcome <;> rfl

/-- Witness for C4: a concrete state with a send in flight is returned
unchanged and no request is issued. -/
theorem send_guard_noop_witness :
    handleSendMessage wSendingState none 0 (Except.ok wChatMessageResponse)
      = (wSendingState, noSendEffects) := by
  have h := send_guard_noop wSendingState none 0 (Except.ok wChatMessageResponse)
  exact h.1 rfl

/-- C10: a rejected sendMessage request leaves all job-list state untouched:
displayedJobs, showJobs, currentPage and selectedJobId keep their pre-send
values and updateChat is never called; on a guard-passing successful send,
and only then, selectedJobId is cleared. -/
theorem send_failure_frame (st : ChatPageState) (text : Option String)
    (now : Nat) (err : String) (resp : ChatMessageResponse) :
    (handleSendMessage st text now (Except.error err)).fst.displayedJobs
      = st.displayedJobs ∧
    (handleSendMessage st text now (Except.error err)).fst.showJobs
      = st.showJobs ∧
    (handleSendMessage st text now (Except.error err)).fst.currentPage
      = st.currentPage ∧
    (handleSendMessage st text now (Except.error err)).fst.selectedJobId
      = st.selectedJobId ∧
    (handleSendMessage st text now (Except.error err)).snd.updateChatCalls
      = [] ∧
    (handleSendMessage st text now (Except.ok resp)).fst.selectedJobId
      = (if sendGuardFails st text then st.selectedJobId else none) := by
  by_cases hg : sendGuardFails st text = true
  · rw [handleSendMessage_guardTrue st text now (Except.error err) hg,
      handleSendMessage_guardTrue st text now (Except.ok resp) hg, if_pos hg]
    exact ⟨rfl, rfl, rfl, rfl, rfl, rfl⟩
  · simp only [Bool.not_eq_true] at hg
    rw [if_neg (by rw [hg]; exact Bool.false_ne_true)]
    obtain ⟨cc, msg, dj, cp, sj, iss, sel, aci⟩ := st
    have hg2 := hg
    unfold sendGuardFails at hg2
    simp only [Bool.or_eq_false_iff] at hg2
    obtain ⟨⟨⟨htrim, hcc⟩, haci⟩, hiss⟩ := hg2
    cases cc with
    | none => simp at hcc
    | some c =>
      cases aci with
      | none => simp at haci
      | some a =>
        rw [handleSendMessage_error_eq c a msg dj cp sj iss sel text now err hg,
          handleSendMessage_ok_selectedJobId c a msg dj cp sj iss sel text now resp hg]
        exact ⟨rfl, rfl, rfl, rfl, rfl, rfl⟩

/-- A step function that is a no-op on the closed-modal state keeps the modal
closed and produces only trivial effects along any event trace. -/
theorem runApplySteps_const (step : Bool → ApplyEvent → Bool × ApplyEffects)
    (hstep : ∀ e, step false e = (false, noApplyEffects)) :
    ∀ events : List ApplyEvent,
      runApplySteps step false events
        = (false, List.replicate events.length noApplyEffects) := by
  intro events
  induction events with
  | nil => rfl
  | cons e es ih =>
    simp only [runApplySteps, hstep e, ih, List.length_cons, List.replicate_succ]

/-- C6: in both JobCard and JobDetailModal, when isApplied is true every
event trace from the closed-modal state is a complete no-op (no link opened,
no confirmation shown, onApply never called); a step calls onApply exactly
when it is a confirm click with the confirmation modal open; and when
isApplied is false an Apply click only opens the apply link and the
confirmation modal, never calling onApply itself. -/
theorem apply_requires_confirmation (job : Job) (events : List ApplyEvent)
    (s : Bool) (e : ApplyEvent) :
    runApplySteps (jobCardApplyStep true job) false events
      = (false, List.replicate events.length noApplyEffects) ∧
    runApplySteps (jobDetailApplyStep true job) false events
      = (false, List.replicate events.length noApplyEffects) ∧
    ((jobCardApplyStep false job s e).snd.onApplyCalled = true ↔
      (e = ApplyEvent.confirmClick ∧ s = true)) ∧
    ((jobDetailApplyStep false job s e).snd.onApplyCalled = true ↔
      (e = ApplyEvent.confirmClick ∧ s = true)) ∧
    jobCardApplyStep false job s ApplyEvent.applyClick
      = (true, { openedLink := job.applyLink, onApplyCalled := false }) ∧
    jobDetailApplyStep false job s ApplyEvent.applyClick
      = (true, { openedLink := job.applyLink, onApplyCalled := false }) := by
  refine ⟨runApplySteps_const _ ?_ events, runApplySteps_const _ ?_ events,
    ?_, ?_, rfl, rfl⟩
  · intro e2; cases e2 <;> rfl
  · intro e2; cases e2 <;> rfl
  · cases e <;> cases s <;> simp [jobCardApplyStep, noApplyEffects]
  · cases e <;> cases s <;> simp [jobDetailApplyStep, noApplyEffects]

/-- C7: JobDetailModal and both ApplyConfirmationModal components render null
whenever isOpen is false, and render their content as a portal into the modal
root exactly when isOpen is true. -/
theorem modals_render_iff_open (job : Job) (hasRoot : Bool) (showConfirm : Bool) :
    jobCardApplyConfirmationModal false job hasRoot = Rendered.null ∧
    jobDetailApplyConfirmationModal false job hasRoot = Rendered.null ∧
    jobDetailModalRender job false showConfirm hasRoot = Rendered.null ∧
    jobCardApplyConfirmationModal true job hasRoot =
      Rendered.portal { jobTitle := job.title, jobCompany := job.company }
        (getModalRoot hasRoot) ∧
    jobDetailApplyConfirmationModal true job hasRoot =
      Rendered.portal { jobTitle := job.title, jobCompany := job.company }
        (getModalRoot hasRoot) ∧
    jobDetailModalRender job true showConfirm hasRoot =
      Rendered.portal
        { job := job
          applyConfirmation :=
            jobDetailApplyConfirmationModal showConfirm job hasRoot }
        (getModalRoot hasRoot) :=
  ⟨rfl, rfl, rfl, rfl, rfl, rfl⟩

/-- C8: in both JobCard and JobDetailModal, the save toggle makes exactly one
callback invocation — onUnsave(job) when isSaved is true and onSave(job)
when isSaved is false. -/
theorem saveToggle_exclusive (job : Job) :
    jobCardHandleSaveToggle true job = [SaveCall.onUnsaveCb job] ∧
    jobCardHandleSaveToggle false job = [SaveCall.onSaveCb job] ∧
    jobDetailHandleSaveToggle true job = [SaveCall.onUnsaveCb job] ∧
    jobDetailHandleSaveToggle false job = [SaveCall.onSaveCb job] ∧
    (∀ b : Bool, (jobCardHandleSaveToggle b job).length = 1 ∧
      (jobDetailHandleSaveToggle b job).length = 1) := by
  refine ⟨rfl, rfl, rfl, rfl, ?_⟩
  intro b; cases b <;> exact ⟨rfl, rfl⟩
